import Mathlib

/-!
# Tickless idle on the QN RTC port

A shallow embedding of `freertos/fsl_tickless_qn_rtc.c`:

* the file-scope statics become the record `PortState`;
* the build-time constants the file uses but does not define
  (`configSYSTICK_CLOCK_HZ`, `configTICK_RATE_HZ`, `configRTC_CLOCK_HZ`,
  `portMAX_32_BIT_NUMBER`, `RTC_BASE`) become the record `PortConfig`;
* everything the routine obtains from outside during one call (the scheduler's
  answer, hardware reads, the pre-sleep hook, whether the timer interrupt runs)
  becomes the record `Collaborators`;
* calls to external functions and register writes are recorded, in program
  order, as a list of `Action`s;
* `uint32_t` arithmetic is arithmetic on `Nat` reduced modulo `2 ^ 32`, and an
  integer division is fallible (`none` on a zero divisor).
-/

namespace Tickless

/-! ## 32-bit unsigned arithmetic -/

/-- Addition of two `uint32_t` values. -/
def add32 (a b : Nat) : Nat := (a + b) % 4294967296

/-- Subtraction of two `uint32_t` values, wrapping below zero. -/
def sub32 (a b : Nat) : Nat := (a % 4294967296 + 4294967296 - b % 4294967296) % 4294967296

/-- Multiplication of two `uint32_t` values. -/
def mul32 (a b : Nat) : Nat := (a * b) % 4294967296

/-- Unsigned division whose quotient is kept in a `uint32_t`; a zero divisor has
no defined result. -/
def div32 (a b : Nat) : Option Nat :=
  if b = 0 then none else some ((a / b) % 4294967296)

/-! ## Data model -/

/-- Result type of `eTaskConfirmSleepModeStatus` (declared in the kernel's
`task.h`); the port only compares it with `eAbortSleep`. -/
inductive eSleepModeStatus where
  | eAbortSleep
  | eStandardSleep
  | eNoTasksWaitingTimeout
  deriving DecidableEq

/-- Build-time constants used by the port file and defined elsewhere. -/
structure PortConfig where
  /-- Clock of the periodic (SysTick) timer. -/
  configSYSTICK_CLOCK_HZ : Nat
  /-- Kernel tick rate. -/
  configTICK_RATE_HZ : Nat
  /-- Clock of the wakeup timer. -/
  configRTC_CLOCK_HZ : Nat
  /-- Largest value of the wakeup counter. -/
  portMAX_32_BIT_NUMBER : Nat
  /-- Address behind `TICKLESS_RTC_BASE_PTR` (line 90). -/
  RTC_BASE : Nat

/-- The file-scope statics (lines 93, 144, 152, 159, 166). -/
structure PortState where
  s_rtcSleepStartCount : Nat
  ulTimerCountsForOneTick : Nat
  xMaximumPossibleSuppressedTicks : Nat
  ulLPTimerCountsForOneTick : Nat
  ulLPTimerInterruptFired : Bool
  deriving DecidableEq

/-- The statics as the C initialisers leave them. -/
def PortState.zero : PortState :=
  { s_rtcSleepStartCount := 0
    ulTimerCountsForOneTick := 0
    xMaximumPossibleSuppressedTicks := 0
    ulLPTimerCountsForOneTick := 0
    ulLPTimerInterruptFired := false }

/-- What the surroundings answer during one call of
`vPortSuppressTicksAndSleep`. -/
structure Collaborators where
  /-- Answer of the scheduler at line 211. -/
  eTaskConfirmSleepModeStatus : eSleepModeStatus
  /-- Content of the SysTick current-value register when line 215 reads it. -/
  portNVIC_SYSTICK_CURRENT_VALUE_REG : Nat
  /-- Value of `TA_GetTimestamp()` inside `RTC_StartTimer` (line 117). -/
  timestampAtStart : Nat
  /-- Value of `TA_GetTimestamp()` inside `RTC_GetWakeupCount` (line 103). -/
  timestampAtWake : Nat
  /-- Value `configPRE_SLEEP_PROCESSING` leaves in its argument (line 242). -/
  configPRE_SLEEP_PROCESSING : Nat → Nat
  /-- Whether `vPortRtcIsr` runs after the timer is armed and before the
  post-sleep hook (lines 231-253). -/
  isrWhileAsleep : Bool
  /-- Whether `vPortRtcIsr` runs between `__enable_irq()` (line 259) and the
  read of the flag (line 261). -/
  isrAfterUnmask : Bool

/-- Externally visible steps: calls of functions defined outside the file,
writes to the SysTick/NVIC registers, and accesses to the wakeup flag.  The
barrier and no-operation intrinsics (`__DSB`, `__ISB`, `__NOP`) are not
recorded. -/
inductive Action where
  /-- `RTC_StopTimer(pxRtcBase)`. -/
  | RTC_StopTimer
  /-- `portNVIC_SYSTICK_CTRL_REG &= ~portNVIC_SYSTICK_ENABLE_BIT`. -/
  | sysTickCtrlClearEnable
  /-- `__disable_irq()`. -/
  | disable_irq
  /-- `eTaskConfirmSleepModeStatus()` with its answer. -/
  | eTaskConfirmSleepModeStatus (r : eSleepModeStatus)
  /-- `portNVIC_SYSTICK_LOAD_REG = v`. -/
  | sysTickLoadWrite (v : Nat)
  /-- `portNVIC_SYSTICK_CTRL_REG |= portNVIC_SYSTICK_ENABLE_BIT`. -/
  | sysTickCtrlSetEnable
  /-- `__enable_irq()`. -/
  | enable_irq
  /-- `RTC_SetWakeupCount(pxRtcBase, wakeupValue)`, which arms a single-shot
  timer whose callback is `vPortRtcIsr`. -/
  | RTC_SetWakeupCount (wakeupValue : Nat)
  /-- `RTC_StartTimer(pxRtcBase)` with the count it stores. -/
  | RTC_StartTimer (count : Nat)
  /-- `configPRE_SLEEP_PROCESSING(x)` with the value passed in. -/
  | configPRE_SLEEP_PROCESSING (x : Nat)
  /-- `PM_PowerManagement()`. -/
  | PM_PowerManagement
  /-- `portNVIC_SYSPRI2_REG |= portNVIC_PENDSV_PRI`. -/
  | sysPri2OrPendSV
  /-- `portNVIC_SYSPRI2_REG |= portNVIC_SYSTICK_PRI`. -/
  | sysPri2OrSysTick
  /-- `portNVIC_SYSTICK_CTRL_REG = CLK_BIT | INT_BIT`. -/
  | sysTickCtrlWriteClkInt
  /-- `__enable_fiq()`. -/
  | enable_fiq
  /-- `configPOST_SLEEP_PROCESSING(x)`. -/
  | configPOST_SLEEP_PROCESSING (x : Nat)
  /-- `ulLPTimerInterruptFired = false`. -/
  | clearWakeupFlag
  /-- A run of the interrupt handler `vPortRtcIsr`. -/
  | vPortRtcIsr
  /-- The read of `ulLPTimerInterruptFired` at line 261 with the value seen. -/
  | sampleWakeupFlag (b : Bool)
  /-- `TA_GetTimestamp()` inside `RTC_GetWakeupCount` with the value read. -/
  | TA_GetTimestamp (v : Nat)
  /-- `portENTER_CRITICAL()`. -/
  | portENTER_CRITICAL
  /-- `vTaskStepTick(n)`. -/
  | vTaskStepTick (n : Nat)
  /-- `portEXIT_CRITICAL()`. -/
  | portEXIT_CRITICAL
  /-- `NVIC_EnableIRQ(vPortGetRtcIrqn())`. -/
  | NVIC_EnableIRQ
  /-- `portNVIC_SYSTICK_CURRENT_VALUE_REG = v`. -/
  | sysTickCurrentWrite (v : Nat)
  /-- `portNVIC_SYSTICK_CTRL_REG = CLK_BIT | INT_BIT | ENABLE_BIT`. -/
  | sysTickCtrlWriteClkIntEnable
  deriving DecidableEq

/-! ## The functions of the file -/

/-- Lines 101-113.  The argument `timestamp` is what `TA_GetTimestamp()`
returns. -/
def RTC_GetWakeupCount (cfg : PortConfig) (st : PortState) (timestamp : Nat) : Nat :=
  let sleepCount := timestamp % 4294967296
  if sleepCount ≥ st.s_rtcSleepStartCount then
    sub32 sleepCount st.s_rtcSleepStartCount
  else
    sub32 (add32 sleepCount cfg.portMAX_32_BIT_NUMBER) st.s_rtcSleepStartCount

/-- Lines 115-118.  The argument `timestamp` is what `TA_GetTimestamp()`
returns. -/
def RTC_StartTimer (st : PortState) (timestamp : Nat) : PortState :=
  { st with s_rtcSleepStartCount := timestamp % 4294967296 }

/-- Lines 129-132. -/
def vPortGetRtcBase (cfg : PortConfig) : Nat := cfg.RTC_BASE

/-- Lines 171-174. -/
def vPortRtcIsr (st : PortState) : PortState :=
  { st with ulLPTimerInterruptFired := true }

/-- A window in which the interrupt handler `vPortRtcIsr` may run: it runs when
`fires` holds. -/
def isrWindow (fires : Bool) (st : PortState) : PortState :=
  if fires then vPortRtcIsr st else st

/-- Actions of a window in which `vPortRtcIsr` may run. -/
def isrActions (fires : Bool) : List Action :=
  if fires then [Action.vPortRtcIsr] else []

/-- Lines 200-211: both timers are stopped, interrupts are masked and the
scheduler is asked whether the sleep may go ahead. -/
def entryActions (env : Collaborators) : List Action :=
  [ Action.RTC_StopTimer,
    Action.sysTickCtrlClearEnable,
    Action.disable_irq,
    Action.eTaskConfirmSleepModeStatus env.eTaskConfirmSleepModeStatus ]

/-- Lines 215-226: SysTick is restarted from its current value, then its reload
register is set for normal periods and interrupts are unmasked. -/
def abortActions (env : Collaborators) (st : PortState) : List Action :=
  [ Action.sysTickLoadWrite (env.portNVIC_SYSTICK_CURRENT_VALUE_REG % 4294967296),
    Action.sysTickCtrlSetEnable,
    Action.sysTickLoadWrite (sub32 st.ulTimerCountsForOneTick 1),
    Action.enable_irq ]

/-- Lines 241-252: the pre-sleep hook works on a copy of the idle time, and the
sleep entry with the register writes after it is skipped when the hook leaves 0
in the copy. -/
def sleepActions (env : Collaborators) (xExpectedIdleTime : Nat) : List Action :=
  let xModifiableIdleTime := env.configPRE_SLEEP_PROCESSING xExpectedIdleTime % 4294967296
  Action.configPRE_SLEEP_PROCESSING xExpectedIdleTime ::
    (if xModifiableIdleTime > 0 then
      [ Action.PM_PowerManagement,
        Action.sysPri2OrPendSV,
        Action.sysPri2OrSysTick,
        Action.sysTickCtrlWriteClkInt,
        Action.enable_fiq ]
    else [])

/-- Lines 284-291: the wakeup timer is stopped and, inside a critical section,
SysTick is restarted, the kernel is stepped and the reload register restored. -/
def resumeTickActions (st : PortState) (ulCompleteTickPeriods : Nat) : List Action :=
  [ Action.RTC_StopTimer,
    Action.portENTER_CRITICAL,
    Action.sysTickCtrlSetEnable,
    Action.vTaskStepTick ulCompleteTickPeriods,
    Action.sysTickLoadWrite (sub32 st.ulTimerCountsForOneTick 1),
    Action.portEXIT_CRITICAL ]

/-- Lines 176-293.  The result is the statics after the call together with the
actions performed, or `none` when the division at line 277 has a zero divisor. -/
def vPortSuppressTicksAndSleep (cfg : PortConfig) (env : Collaborators) (st : PortState)
    (xExpectedIdleTime : Nat) : Option (PortState × List Action) :=
  let pxRtcBase := vPortGetRtcBase cfg
  if pxRtcBase = 0 then some (st, [])
  else
    let xExpectedIdleTime :=
      if xExpectedIdleTime > st.xMaximumPossibleSuppressedTicks then
        st.xMaximumPossibleSuppressedTicks
      else xExpectedIdleTime
    if xExpectedIdleTime = 0 then some (st, [])
    else
      let ulReloadValue := mul32 st.ulLPTimerCountsForOneTick (sub32 xExpectedIdleTime 1)
      if env.eTaskConfirmSleepModeStatus = eSleepModeStatus.eAbortSleep then
        some (st, entryActions env ++ abortActions env st)
      else
        -- lines 231-234
        let st1 := RTC_StartTimer st env.timestampAtStart
        let armed : List Action :=
          [ Action.RTC_SetWakeupCount ulReloadValue,
            Action.RTC_StartTimer st1.s_rtcSleepStartCount ]
        -- lines 241-253
        let st2 := isrWindow env.isrWhileAsleep st1
        let slept : List Action :=
          sleepActions env xExpectedIdleTime ++ isrActions env.isrWhileAsleep ++
            [ Action.configPOST_SLEEP_PROCESSING xExpectedIdleTime ]
        -- lines 255-261
        let st3 := { st2 with ulLPTimerInterruptFired := false }
        let st4 := isrWindow env.isrAfterUnmask st3
        let woken : List Action :=
          [ Action.clearWakeupFlag, Action.enable_irq ] ++ isrActions env.isrAfterUnmask ++
            [ Action.sampleWakeupFlag st4.ulLPTimerInterruptFired ]
        let before := entryActions env ++ armed ++ slept ++ woken
        if st4.ulLPTimerInterruptFired then
          -- lines 268-269
          let ulCompleteTickPeriods := sub32 xExpectedIdleTime 1
          let st5 := { st4 with ulLPTimerInterruptFired := false }
          some (st5, before ++ [Action.clearWakeupFlag] ++
            resumeTickActions st5 ulCompleteTickPeriods)
        else
          -- line 277
          match div32 (RTC_GetWakeupCount cfg st4 env.timestampAtWake)
              st4.ulLPTimerCountsForOneTick with
          | none => none
          | some ulCompleteTickPeriods =>
            some (st4, before ++ [Action.TA_GetTimestamp (env.timestampAtWake % 4294967296)] ++
              resumeTickActions st4 ulCompleteTickPeriods)

/-- Lines 300-314 with `configUSE_TICKLESS_IDLE == 1`.  The result is `none`
when one of the divisions has a zero divisor. -/
def vPortSetupTimerInterrupt (cfg : PortConfig) (st : PortState) :
    Option (PortState × List Action) :=
  match div32 cfg.configSYSTICK_CLOCK_HZ cfg.configTICK_RATE_HZ with
  | none => none
  | some t =>
    match div32 cfg.configRTC_CLOCK_HZ cfg.configTICK_RATE_HZ with
    | none => none
    | some c =>
      match div32 cfg.portMAX_32_BIT_NUMBER c with
      | none => none
      | some m =>
        some ({ st with
                ulTimerCountsForOneTick := t
                ulLPTimerCountsForOneTick := c
                xMaximumPossibleSuppressedTicks := m },
              [ Action.NVIC_EnableIRQ,
                Action.sysTickLoadWrite (sub32 t 1),
                Action.sysTickCurrentWrite 0,
                Action.sysTickCtrlWriteClkIntEnable ])

/-! ## Observations on a list of actions -/

/-- Arguments of the calls of `vTaskStepTick`, in order. -/
def stepTickCalls (tr : List Action) : List Nat :=
  tr.filterMap fun a =>
    match a with
    | Action.vTaskStepTick n => some n
    | _ => none

/-- Arguments of the calls of `configPOST_SLEEP_PROCESSING`, in order. -/
def postSleepCalls (tr : List Action) : List Nat :=
  tr.filterMap fun a =>
    match a with
    | Action.configPOST_SLEEP_PROCESSING x => some x
    | _ => none

/-- Reload values with which the wakeup timer is armed, in order. -/
def armedReloads (tr : List Action) : List Nat :=
  tr.filterMap fun a =>
    match a with
    | Action.RTC_SetWakeupCount v => some v
    | _ => none

/-- Number of executions of the sleep-entry primitive `PM_PowerManagement`. -/
def sleepEntryCount (tr : List Action) : Nat :=
  (tr.filterMap fun a =>
    match a with
    | Action.PM_PowerManagement => some ()
    | _ => none).length

/-- Arguments of the calls of `configPRE_SLEEP_PROCESSING`, in order. -/
def preSleepCalls (tr : List Action) : List Nat :=
  tr.filterMap fun a =>
    match a with
    | Action.configPRE_SLEEP_PROCESSING x => some x
    | _ => none

/-- Ticks applied to the kernel by the actions: the sum of the arguments of
`vTaskStepTick`, hence 0 when it is not called. -/
def appliedTicks (tr : List Action) : Nat := (stepTickCalls tr).sum

/-- Whether an action programs one of the two timers: stopping or arming the
wakeup timer, capturing its start count, or writing a SysTick register. -/
def Action.isTimerProgramming : Action → Bool
  | Action.RTC_StopTimer => true
  | Action.sysTickCtrlClearEnable => true
  | Action.sysTickLoadWrite _ => true
  | Action.sysTickCtrlSetEnable => true
  | Action.RTC_SetWakeupCount _ => true
  | Action.RTC_StartTimer _ => true
  | Action.sysTickCtrlWriteClkInt => true
  | Action.sysTickCurrentWrite _ => true
  | Action.sysTickCtrlWriteClkIntEnable => true
  | _ => false

/-! ## The statics along the proceed path -/

/-- Statics after a completed proceed path: the start count has been captured
and the wakeup flag is clear. -/
def PortState.afterSleep (st : PortState) (timestamp : Nat) : PortState :=
  { st with s_rtcSleepStartCount := timestamp % 4294967296, ulLPTimerInterruptFired := false }

/-- Consistency of the two statics that bound a sleep: a zero
`ulLPTimerCountsForOneTick` comes with a zero `xMaximumPossibleSuppressedTicks`.
It holds for the zero-initialised statics and after every completed
`vPortSetupTimerInterrupt`, and `vPortSuppressTicksAndSleep` keeps it. -/
def PortState.Consistent (st : PortState) : Prop :=
  st.ulLPTimerCountsForOneTick = 0 → st.xMaximumPossibleSuppressedTicks = 0

/-! ## Sample configurations -/

/-- The configuration of the worked example: 1 kHz tick, 32.768 kHz wakeup
clock, a 16-bit wakeup counter. -/
def cfg16 : PortConfig :=
  { configSYSTICK_CLOCK_HZ := 16000000
    configTICK_RATE_HZ := 1000
    configRTC_CLOCK_HZ := 32768
    portMAX_32_BIT_NUMBER := 65535
    RTC_BASE := 1073786880 }

/-- The same rates with the 32-bit maximum `0xffffffff`. -/
def cfg32 : PortConfig :=
  { configSYSTICK_CLOCK_HZ := 16000000
    configTICK_RATE_HZ := 1000
    configRTC_CLOCK_HZ := 32768
    portMAX_32_BIT_NUMBER := 4294967295
    RTC_BASE := 1073786880 }

/-- Statics after `vPortSetupTimerInterrupt` under `cfg16`. -/
def st16 : PortState :=
  { s_rtcSleepStartCount := 0
    ulTimerCountsForOneTick := 16000
    xMaximumPossibleSuppressedTicks := 2047
    ulLPTimerCountsForOneTick := 32
    ulLPTimerInterruptFired := false }

/-- Statics after `vPortSetupTimerInterrupt` under `cfg32`. -/
def st32 : PortState :=
  { s_rtcSleepStartCount := 0
    ulTimerCountsForOneTick := 16000
    xMaximumPossibleSuppressedTicks := 134217727
    ulLPTimerCountsForOneTick := 32
    ulLPTimerInterruptFired := false }

/-- Collaborators for an undisturbed sleep that the wakeup timer ends. -/
def envTimerFired : Collaborators :=
  { eTaskConfirmSleepModeStatus := eSleepModeStatus.eStandardSleep
    portNVIC_SYSTICK_CURRENT_VALUE_REG := 1234
    timestampAtStart := 5000
    timestampAtWake := 8168
    configPRE_SLEEP_PROCESSING := fun x => x
    isrWhileAsleep := false
    isrAfterUnmask := true }

/-- Collaborators whose scheduler refuses the sleep. -/
def envAbort : Collaborators :=
  { envTimerFired with eTaskConfirmSleepModeStatus := eSleepModeStatus.eAbortSleep }

/-- Collaborators whose pre-sleep hook does the waiting itself and leaves 0 in
its copy of the idle time; the wakeup timer ends the sleep. -/
def envPreWaits : Collaborators :=
  { envTimerFired with configPRE_SLEEP_PROCESSING := fun _ => 0 }

/-- Collaborators for a sleep during which `vPortRtcIsr` runs while the processor
is still inside the sleep sequence, and not again after the unmask; the counter
advances by 99 tick periods. -/
def envIsrAsleep : Collaborators :=
  { envTimerFired with isrWhileAsleep := true, isrAfterUnmask := false }

/-- Collaborators for a sleep ended by another interrupt, with the two readings
of the free-running counter given. -/
def envEarly (start wake : Nat) : Collaborators :=
  { eTaskConfirmSleepModeStatus := eSleepModeStatus.eStandardSleep
    portNVIC_SYSTICK_CURRENT_VALUE_REG := 1234
    timestampAtStart := start
    timestampAtWake := wake
    configPRE_SLEEP_PROCESSING := fun x => x
    isrWhileAsleep := false
    isrAfterUnmask := false }

/-! ## Arithmetic lemmas -/

theorem sub32_of_le {a b : Nat} (hb : b ≤ a) (ha : a < 4294967296) : sub32 a b = a - b := by
  unfold sub32
  omega

theorem mul32_of_lt {a b : Nat} (h : a * b < 4294967296) : mul32 a b = a * b := by
  unfold mul32
  exact Nat.mod_eq_of_lt h

theorem div32_of_pos {a b : Nat} (hb : 0 < b) (ha : a < 4294967296) :
    div32 a b = some (a / b) := by
  unfold div32
  have h1 : a / b ≤ a := Nat.div_le_self a b
  have h2 : (a / b) % 4294967296 = a / b := Nat.mod_eq_of_lt (by omega)
  simp [h2, Nat.pos_iff_ne_zero.mp hb]

theorem sub32_lt (a b : Nat) : sub32 a b < 4294967296 := by
  unfold sub32
  omega

theorem RTC_GetWakeupCount_lt (cfg : PortConfig) (st : PortState) (t : Nat) :
    RTC_GetWakeupCount cfg st t < 4294967296 := by
  unfold RTC_GetWakeupCount
  simp only []
  split <;> exact sub32_lt _ _

/-- Without a wrap the elapsed count is the plain difference. -/
theorem RTC_GetWakeupCount_no_wrap (cfg : PortConfig) (st : PortState) (t : Nat)
    (h : st.s_rtcSleepStartCount ≤ t % 4294967296) :
    RTC_GetWakeupCount cfg st t = t % 4294967296 - st.s_rtcSleepStartCount := by
  unfold RTC_GetWakeupCount
  simp only [ge_iff_le, h, if_true]
  exact sub32_of_le h (Nat.mod_lt _ (by norm_num))

/-- After a wrap, with the maximum `0xffffffff`, the elapsed count comes out one
short of the modular difference. -/
theorem RTC_GetWakeupCount_wrap_short (cfg : PortConfig) (st : PortState) (t : Nat)
    (hM : cfg.portMAX_32_BIT_NUMBER = 4294967295)
    (hs : st.s_rtcSleepStartCount < 4294967296)
    (h : t % 4294967296 < st.s_rtcSleepStartCount) :
    RTC_GetWakeupCount cfg st t + 1
      = (t % 4294967296 + 4294967296 - st.s_rtcSleepStartCount) % 4294967296 := by
  unfold RTC_GetWakeupCount
  simp only [ge_iff_le, Nat.not_le.mpr h, if_false, hM]
  unfold sub32 add32
  omega

theorem isrWindow_clear_eq (b1 b2 : Bool) (st : PortState) (t : Nat) :
    isrWindow b2 { isrWindow b1 (RTC_StartTimer st t) with ulLPTimerInterruptFired := false }
      = { st with s_rtcSleepStartCount := t % 4294967296, ulLPTimerInterruptFired := b2 } := by
  cases b1 <;> cases b2 <;> rfl

theorem clamp_eq_min (N M : Nat) : (if N > M then M else N) = min N M := by
  split <;> omega

@[simp] theorem stepTickCalls_append (a b : List Action) :
    stepTickCalls (a ++ b) = stepTickCalls a ++ stepTickCalls b := by
  simp [stepTickCalls, List.filterMap_append]

@[simp] theorem stepTickCalls_nil : stepTickCalls [] = [] := rfl

@[simp] theorem stepTickCalls_cons (a : Action) (tr : List Action) :
    stepTickCalls (a :: tr)
      = (match a with
        | Action.vTaskStepTick n => [n]
        | _ => []) ++ stepTickCalls tr := by
  cases a <;> rfl

@[simp] theorem stepTickCalls_entryActions (env : Collaborators) :
    stepTickCalls (entryActions env) = [] := rfl

@[simp] theorem stepTickCalls_abortActions (env : Collaborators) (st : PortState) :
    stepTickCalls (abortActions env st) = [] := rfl

@[simp] theorem stepTickCalls_isrActions (b : Bool) : stepTickCalls (isrActions b) = [] := by
  cases b <;> rfl

@[simp] theorem stepTickCalls_sleepActions (env : Collaborators) (x : Nat) :
    stepTickCalls (sleepActions env x) = [] := by
  unfold sleepActions
  simp only []
  split <;> rfl

@[simp] theorem stepTickCalls_resumeTickActions (st : PortState) (n : Nat) :
    stepTickCalls (resumeTickActions st n) = [n] := rfl

@[simp] theorem postSleepCalls_nil : postSleepCalls [] = [] := rfl

@[simp] theorem postSleepCalls_cons (a : Action) (tr : List Action) :
    postSleepCalls (a :: tr)
      = (match a with
        | Action.configPOST_SLEEP_PROCESSING x => [x]
        | _ => []) ++ postSleepCalls tr := by
  cases a <;> rfl

@[simp] theorem postSleepCalls_append (a b : List Action) :
    postSleepCalls (a ++ b) = postSleepCalls a ++ postSleepCalls b := by
  simp [postSleepCalls, List.filterMap_append]

@[simp] theorem postSleepCalls_entryActions (env : Collaborators) :
    postSleepCalls (entryActions env) = [] := rfl

@[simp] theorem postSleepCalls_isrActions (b : Bool) : postSleepCalls (isrActions b) = [] := by
  cases b <;> rfl

@[simp] theorem postSleepCalls_sleepActions (env : Collaborators) (x : Nat) :
    postSleepCalls (sleepActions env x) = [] := by
  unfold sleepActions
  simp only []
  split <;> rfl

@[simp] theorem postSleepCalls_resumeTickActions (st : PortState) (n : Nat) :
    postSleepCalls (resumeTickActions st n) = [] := rfl

@[simp] theorem armedReloads_nil : armedReloads [] = [] := rfl

@[simp] theorem armedReloads_cons (a : Action) (tr : List Action) :
    armedReloads (a :: tr)
      = (match a with
        | Action.RTC_SetWakeupCount v => [v]
        | _ => []) ++ armedReloads tr := by
  cases a <;> rfl

@[simp] theorem armedReloads_append (a b : List Action) :
    armedReloads (a ++ b) = armedReloads a ++ armedReloads b := by
  simp [armedReloads, List.filterMap_append]

@[simp] theorem armedReloads_entryActions (env : Collaborators) :
    armedReloads (entryActions env) = [] := rfl

@[simp] theorem armedReloads_abortActions (env : Collaborators) (st : PortState) :
    armedReloads (abortActions env st) = [] := rfl

@[simp] theorem armedReloads_isrActions (b : Bool) : armedReloads (isrActions b) = [] := by
  cases b <;> rfl

@[simp] theorem armedReloads_sleepActions (env : Collaborators) (x : Nat) :
    armedReloads (sleepActions env x) = [] := by
  unfold sleepActions
  simp only []
  split <;> rfl

@[simp] theorem armedReloads_resumeTickActions (st : PortState) (n : Nat) :
    armedReloads (resumeTickActions st n) = [] := rfl

@[simp] theorem sleepEntryCount_nil : sleepEntryCount [] = 0 := rfl

@[simp] theorem sleepEntryCount_cons (a : Action) (tr : List Action) :
    sleepEntryCount (a :: tr)
      = (match a with
        | Action.PM_PowerManagement => 1
        | _ => 0) + sleepEntryCount tr := by
  cases a <;> simp [sleepEntryCount, List.filterMap_cons, Nat.add_comm]

@[simp] theorem sleepEntryCount_append (a b : List Action) :
    sleepEntryCount (a ++ b) = sleepEntryCount a + sleepEntryCount b := by
  simp [sleepEntryCount, List.filterMap_append]

@[simp] theorem sleepEntryCount_entryActions (env : Collaborators) :
    sleepEntryCount (entryActions env) = 0 := rfl

@[simp] theorem sleepEntryCount_isrActions (b : Bool) : sleepEntryCount (isrActions b) = 0 := by
  cases b <;> rfl

theorem sleepEntryCount_sleepActions (env : Collaborators) (x : Nat) :
    sleepEntryCount (sleepActions env x)
      = if 0 < env.configPRE_SLEEP_PROCESSING x % 4294967296 then 1 else 0 := by
  unfold sleepActions
  simp only [gt_iff_lt]
  split <;> rfl

@[simp] theorem sleepEntryCount_resumeTickActions (st : PortState) (n : Nat) :
    sleepEntryCount (resumeTickActions st n) = 0 := rfl

@[simp] theorem preSleepCalls_nil : preSleepCalls [] = [] := rfl

@[simp] theorem preSleepCalls_cons (a : Action) (tr : List Action) :
    preSleepCalls (a :: tr)
      = (match a with
        | Action.configPRE_SLEEP_PROCESSING x => [x]
        | _ => []) ++ preSleepCalls tr := by
  cases a <;> rfl

@[simp] theorem preSleepCalls_append (a b : List Action) :
    preSleepCalls (a ++ b) = preSleepCalls a ++ preSleepCalls b := by
  simp [preSleepCalls, List.filterMap_append]

@[simp] theorem preSleepCalls_entryActions (env : Collaborators) :
    preSleepCalls (entryActions env) = [] := rfl

@[simp] theorem preSleepCalls_isrActions (b : Bool) : preSleepCalls (isrActions b) = [] := by
  cases b <;> rfl

@[simp] theorem preSleepCalls_sleepActions (env : Collaborators) (x : Nat) :
    preSleepCalls (sleepActions env x) = [x] := by
  unfold sleepActions
  simp only []
  split <;> rfl

@[simp] theorem preSleepCalls_resumeTickActions (st : PortState) (n : Nat) :
    preSleepCalls (resumeTickActions st n) = [] := rfl

theorem appliedTicks_of_no_call (tr : List Action) (h : stepTickCalls tr = []) :
    appliedTicks tr = 0 := by
  unfold appliedTicks
  rw [h]
  rfl

theorem appliedTicks_of_one_call (tr : List Action) (n : Nat) (h : stepTickCalls tr = [n]) :
    appliedTicks tr = n := by
  unfold appliedTicks
  rw [h]
  exact Nat.add_zero n

/-- The run of a call that gets past the abort check and sees the flag set. -/
theorem suppress_fired (cfg : PortConfig) (env : Collaborators) (st : PortState) (N : Nat)
    (hbase : vPortGetRtcBase cfg ≠ 0)
    (hx : min N st.xMaximumPossibleSuppressedTicks ≠ 0)
    (hgo : env.eTaskConfirmSleepModeStatus ≠ eSleepModeStatus.eAbortSleep)
    (hfired : env.isrAfterUnmask = true) :
    vPortSuppressTicksAndSleep cfg env st N =
      some (st.afterSleep env.timestampAtStart,
        entryActions env ++
          [ Action.RTC_SetWakeupCount (mul32 st.ulLPTimerCountsForOneTick
              (sub32 (min N st.xMaximumPossibleSuppressedTicks) 1)),
            Action.RTC_StartTimer (env.timestampAtStart % 4294967296) ] ++
          (sleepActions env (min N st.xMaximumPossibleSuppressedTicks) ++
            isrActions env.isrWhileAsleep ++
            [ Action.configPOST_SLEEP_PROCESSING (min N st.xMaximumPossibleSuppressedTicks) ]) ++
          ([ Action.clearWakeupFlag, Action.enable_irq ] ++ isrActions true ++
            [ Action.sampleWakeupFlag true ]) ++
          [ Action.clearWakeupFlag ] ++
          resumeTickActions (st.afterSleep env.timestampAtStart)
            (sub32 (min N st.xMaximumPossibleSuppressedTicks) 1)) := by
  unfold vPortSuppressTicksAndSleep
  simp only [clamp_eq_min, hbase, hx, hgo, hfired, if_false, isrWindow_clear_eq, if_true]
  rfl

/-- The run of a call that gets past the abort check and sees the flag clear. -/
theorem suppress_early (cfg : PortConfig) (env : Collaborators) (st : PortState) (N : Nat)
    (hbase : vPortGetRtcBase cfg ≠ 0)
    (hx : min N st.xMaximumPossibleSuppressedTicks ≠ 0)
    (hgo : env.eTaskConfirmSleepModeStatus ≠ eSleepModeStatus.eAbortSleep)
    (hflag : env.isrAfterUnmask = false) :
    vPortSuppressTicksAndSleep cfg env st N =
      (div32 (RTC_GetWakeupCount cfg (st.afterSleep env.timestampAtStart) env.timestampAtWake)
        st.ulLPTimerCountsForOneTick).map fun ulCompleteTickPeriods =>
        (st.afterSleep env.timestampAtStart,
          entryActions env ++
            [ Action.RTC_SetWakeupCount (mul32 st.ulLPTimerCountsForOneTick
                (sub32 (min N st.xMaximumPossibleSuppressedTicks) 1)),
              Action.RTC_StartTimer (env.timestampAtStart % 4294967296) ] ++
            (sleepActions env (min N st.xMaximumPossibleSuppressedTicks) ++
              isrActions env.isrWhileAsleep ++
              [ Action.configPOST_SLEEP_PROCESSING (min N st.xMaximumPossibleSuppressedTicks) ]) ++
            ([ Action.clearWakeupFlag, Action.enable_irq ] ++ isrActions false ++
              [ Action.sampleWakeupFlag false ]) ++
            [ Action.TA_GetTimestamp (env.timestampAtWake % 4294967296) ] ++
            resumeTickActions (st.afterSleep env.timestampAtStart) ulCompleteTickPeriods) := by
  unfold vPortSuppressTicksAndSleep
  simp only [clamp_eq_min, hbase, hx, hgo, hflag, if_false, isrWindow_clear_eq]
  cases hd : div32 (RTC_GetWakeupCount cfg (st.afterSleep env.timestampAtStart)
      env.timestampAtWake) st.ulLPTimerCountsForOneTick with
  | none =>
    have hd2 := hd
    unfold PortState.afterSleep at hd2
    simp only [hd2, Option.map_none']
    rfl
  | some n =>
    have hd2 := hd
    unfold PortState.afterSleep at hd2
    simp only [hd2, Option.map_some']
    rfl

/-- The run of a call whose sleep the scheduler refuses. -/
theorem suppress_abort (cfg : PortConfig) (env : Collaborators) (st : PortState) (N : Nat)
    (hbase : vPortGetRtcBase cfg ≠ 0)
    (hx : min N st.xMaximumPossibleSuppressedTicks ≠ 0)
    (habort : env.eTaskConfirmSleepModeStatus = eSleepModeStatus.eAbortSleep) :
    vPortSuppressTicksAndSleep cfg env st N =
      some (st, entryActions env ++ abortActions env st) := by
  unfold vPortSuppressTicksAndSleep
  simp only [clamp_eq_min, hbase, hx, habort, if_false, if_true]

/-- The run of a call that returns at line 183 or line 190. -/
theorem suppress_not_attempted (cfg : PortConfig) (env : Collaborators) (st : PortState)
    (N : Nat)
    (h : vPortGetRtcBase cfg = 0 ∨ min N st.xMaximumPossibleSuppressedTicks = 0) :
    vPortSuppressTicksAndSleep cfg env st N = some (st, []) := by
  unfold vPortSuppressTicksAndSleep
  simp only [clamp_eq_min]
  rcases h with h | h
  · simp only [h, if_true]
  · simp only [h, if_true, ite_self]

theorem mem_isrActions_iff (b : Bool) (a : Action) :
    a ∈ isrActions b ↔ b = true ∧ a = Action.vPortRtcIsr := by
  cases b <;> simp [isrActions]

theorem mem_sleepActions_iff (env : Collaborators) (x : Nat) (a : Action) :
    a ∈ sleepActions env x ↔
      a = Action.configPRE_SLEEP_PROCESSING x ∨
        (0 < env.configPRE_SLEEP_PROCESSING x % 4294967296 ∧
          (a = Action.PM_PowerManagement ∨ a = Action.sysPri2OrPendSV ∨
            a = Action.sysPri2OrSysTick ∨ a = Action.sysTickCtrlWriteClkInt ∨
            a = Action.enable_fiq)) := by
  unfold sleepActions
  simp only [gt_iff_lt]
  split <;> simp [*]

/-- What the recorded actions tell about the path of a completed call: the
scheduler's answer is recorded only when the query at line 211 is reached, and a
read of the wakeup flag only when, in addition, the sleep was not aborted; the
value read is then whether `vPortRtcIsr` ran after the unmask. -/
theorem recorded_path (cfg : PortConfig) (env : Collaborators) (st st1 : PortState)
    (N : Nat) (tr : List Action)
    (h : vPortSuppressTicksAndSleep cfg env st N = some (st1, tr)) :
    (∀ r, Action.eTaskConfirmSleepModeStatus r ∈ tr →
        vPortGetRtcBase cfg ≠ 0 ∧ min N st.xMaximumPossibleSuppressedTicks ≠ 0 ∧
          env.eTaskConfirmSleepModeStatus = r) ∧
      (∀ b, Action.sampleWakeupFlag b ∈ tr →
        vPortGetRtcBase cfg ≠ 0 ∧ min N st.xMaximumPossibleSuppressedTicks ≠ 0 ∧
          env.eTaskConfirmSleepModeStatus ≠ eSleepModeStatus.eAbortSleep ∧
          env.isrAfterUnmask = b) := by
  by_cases hna : vPortGetRtcBase cfg = 0 ∨ min N st.xMaximumPossibleSuppressedTicks = 0
  · rw [suppress_not_attempted cfg env st N hna] at h
    simp only [Option.some.injEq, Prod.mk.injEq] at h
    rw [← h.2]
    exact ⟨fun r hr => absurd hr (List.not_mem_nil _),
      fun b hb => absurd hb (List.not_mem_nil _)⟩
  · simp only [not_or] at hna
    obtain ⟨hbase, hx⟩ := hna
    by_cases hab : env.eTaskConfirmSleepModeStatus = eSleepModeStatus.eAbortSleep
    · rw [suppress_abort cfg env st N hbase hx hab] at h
      simp only [Option.some.injEq, Prod.mk.injEq] at h
      rw [← h.2]
      refine ⟨fun r hr => ⟨hbase, hx, ?_⟩, fun b hb => ?_⟩
      · simp [entryActions, abortActions] at hr
        exact hr.symm
      · simp [entryActions, abortActions] at hb
    · by_cases hf : env.isrAfterUnmask = true
      · rw [suppress_fired cfg env st N hbase hx hab hf] at h
        simp only [Option.some.injEq, Prod.mk.injEq] at h
        rw [← h.2]
        refine ⟨fun r hr => ⟨hbase, hx, ?_⟩, fun b hb => ⟨hbase, hx, hab, ?_⟩⟩
        · simp [mem_sleepActions_iff, mem_isrActions_iff, entryActions, resumeTickActions] at hr
          exact hr.symm
        · simp [mem_sleepActions_iff, mem_isrActions_iff, entryActions, resumeTickActions] at hb
          rw [hf, hb]
      · have hf0 : env.isrAfterUnmask = false := by
          cases h0 : env.isrAfterUnmask with
          | true => exact absurd h0 hf
          | false => rfl
        rw [suppress_early cfg env st N hbase hx hab hf0] at h
        simp only [Option.map_eq_some', Prod.mk.injEq] at h
        obtain ⟨n, -, -, htr⟩ := h
        rw [← htr]
        refine ⟨fun r hr => ⟨hbase, hx, ?_⟩, fun b hb => ⟨hbase, hx, hab, ?_⟩⟩
        · simp [mem_sleepActions_iff, mem_isrActions_iff, entryActions, resumeTickActions] at hr
          exact hr.symm
        · simp [mem_sleepActions_iff, mem_isrActions_iff, entryActions, resumeTickActions] at hb
          rw [hf0, hb]

/-! ## Early wake by another interrupt -/

/-- Early wake without a counter wrap: when the sleep is not aborted, the flag
is seen clear and the counter read on wake is `K * c` counts above a start count
it has not wrapped past, exactly `K` ticks are applied. -/
theorem early_wake_no_wrap (cfg : PortConfig) (env : Collaborators) (st : PortState)
    (N K : Nat)
    (hbase : vPortGetRtcBase cfg ≠ 0)
    (hc : 0 < st.ulLPTimerCountsForOneTick)
    (h2 : 2 ≤ N) (hmax : N ≤ st.xMaximumPossibleSuppressedTicks)
    (hgo : env.eTaskConfirmSleepModeStatus ≠ eSleepModeStatus.eAbortSleep)
    (hflag : env.isrAfterUnmask = false)
    (hwake : env.timestampAtWake % 4294967296
      = env.timestampAtStart % 4294967296 + K * st.ulLPTimerCountsForOneTick) :
    ∃ st1 tr, vPortSuppressTicksAndSleep cfg env st N = some (st1, tr) ∧
      Action.sampleWakeupFlag false ∈ tr ∧ stepTickCalls tr = [K] := by
  have hx : min N st.xMaximumPossibleSuppressedTicks ≠ 0 := by omega
  have hlt : K * st.ulLPTimerCountsForOneTick < 4294967296 := by
    have := Nat.mod_lt env.timestampAtWake (show 0 < 4294967296 by norm_num)
    omega
  have hcnt : RTC_GetWakeupCount cfg (st.afterSleep env.timestampAtStart) env.timestampAtWake
      = K * st.ulLPTimerCountsForOneTick := by
    rw [RTC_GetWakeupCount_no_wrap _ _ _ (by simp only [PortState.afterSleep]; omega)]
    simp only [PortState.afterSleep]
    omega
  rw [suppress_early cfg env st N hbase hx hgo hflag, hcnt, div32_of_pos hc hlt,
    Nat.mul_div_cancel _ hc]
  refine ⟨_, _, rfl, ?_, ?_⟩
  · simp
  · simp

/-- Early wake across a counter wrap, with the maximum `0xffffffff`: when the
counter read on wake is `K * c` counts after the start count modulo `2 ^ 32` and
numerically below it, `K - 1` ticks are applied. -/
theorem early_wake_wrapped (cfg : PortConfig) (env : Collaborators) (st : PortState)
    (N K : Nat)
    (hM : cfg.portMAX_32_BIT_NUMBER = 4294967295)
    (hbase : vPortGetRtcBase cfg ≠ 0)
    (hc : 0 < st.ulLPTimerCountsForOneTick)
    (h2 : 2 ≤ N) (hmax : N ≤ st.xMaximumPossibleSuppressedTicks)
    (hK : K * st.ulLPTimerCountsForOneTick < 4294967296)
    (hgo : env.eTaskConfirmSleepModeStatus ≠ eSleepModeStatus.eAbortSleep)
    (hflag : env.isrAfterUnmask = false)
    (hwake : env.timestampAtWake % 4294967296
      = (env.timestampAtStart % 4294967296 + K * st.ulLPTimerCountsForOneTick) % 4294967296)
    (hwrap : env.timestampAtWake % 4294967296 < env.timestampAtStart % 4294967296) :
    ∃ st1 tr, vPortSuppressTicksAndSleep cfg env st N = some (st1, tr) ∧
      Action.sampleWakeupFlag false ∈ tr ∧ stepTickCalls tr = [K - 1] := by
  have hx : min N st.xMaximumPossibleSuppressedTicks ≠ 0 := by omega
  have hs : (st.afterSleep env.timestampAtStart).s_rtcSleepStartCount
      = env.timestampAtStart % 4294967296 := rfl
  have hshort := RTC_GetWakeupCount_wrap_short cfg (st.afterSleep env.timestampAtStart)
    env.timestampAtWake hM (by rw [hs]; omega) (by rw [hs]; exact hwrap)
  rw [hs] at hshort
  have hcnt : RTC_GetWakeupCount cfg (st.afterSleep env.timestampAtStart) env.timestampAtWake
      = K * st.ulLPTimerCountsForOneTick - 1 := by omega
  have hKpos : 0 < K := by
    rcases Nat.eq_zero_or_pos K with h0 | h0
    · subst h0
      omega
    · exact h0
  have hquot : (K * st.ulLPTimerCountsForOneTick - 1) / st.ulLPTimerCountsForOneTick
      = K - 1 := by
    obtain ⟨j, rfl⟩ : ∃ j, K = j + 1 := ⟨K - 1, by omega⟩
    have h1 : (j + 1) * st.ulLPTimerCountsForOneTick - 1
        = (st.ulLPTimerCountsForOneTick - 1) + st.ulLPTimerCountsForOneTick * j := by
      rw [Nat.add_mul, Nat.mul_comm j]
      omega
    rw [h1, Nat.add_mul_div_left _ _ hc, Nat.div_eq_of_lt (by omega)]
    omega
  rw [suppress_early cfg env st N hbase hx hgo hflag, hcnt,
    div32_of_pos hc (by omega), hquot]
  refine ⟨_, _, rfl, ?_, ?_⟩
  · simp
  · simp

/-- C1 (failing input): with 32 counts per tick and the maximum `0xffffffff`,
a request of 100 ticks whose sleep another interrupt ends when the counter has
advanced by exactly one tick period (32 counts) from `0xffffffff` to 31 steps the
kernel by 0 ticks, where one whole period has elapsed. -/
theorem early_wake_across_wrap_steps_zero :
    (vPortSetupTimerInterrupt cfg32 PortState.zero).map Prod.fst = some st32 ∧
      (31 : Nat) = (4294967295 + 1 * st32.ulLPTimerCountsForOneTick) % 4294967296 ∧
      (vPortSuppressTicksAndSleep cfg32 (envEarly 4294967295 31) st32 100).map
        (fun r => stepTickCalls r.2) = some [0] := by
  refine ⟨by decide, by decide, by decide⟩

/-! ## Wake by the wakeup timer -/

/-- C2: for every `N` with `2 ≤ N ≤ xMaximumPossibleSuppressedTicks`, when the
sleep is not aborted and `vPortRtcIsr` has set the flag by the time it is read,
the call returns, the flag is seen set, `vTaskStepTick` is called once with
`N - 1`, and the flag is clear afterwards. -/
theorem timer_fired_wake_steps_pred (cfg : PortConfig) (env : Collaborators)
    (st : PortState) (N : Nat)
    (hbase : vPortGetRtcBase cfg ≠ 0)
    (h2 : 2 ≤ N) (hmax : N ≤ st.xMaximumPossibleSuppressedTicks) (h32 : N < 4294967296)
    (hgo : env.eTaskConfirmSleepModeStatus ≠ eSleepModeStatus.eAbortSleep)
    (hfired : env.isrAfterUnmask = true) :
    ∃ st1 tr, vPortSuppressTicksAndSleep cfg env st N = some (st1, tr) ∧
      Action.sampleWakeupFlag true ∈ tr ∧
      stepTickCalls tr = [N - 1] ∧
      st1.ulLPTimerInterruptFired = false := by
  have hmin : min N st.xMaximumPossibleSuppressedTicks = N := Nat.min_eq_left hmax
  have hx : min N st.xMaximumPossibleSuppressedTicks ≠ 0 := by omega
  rw [suppress_fired cfg env st N hbase hx hgo hfired, hmin,
    sub32_of_le (show 1 ≤ N by omega) h32]
  refine ⟨_, _, rfl, ?_, ?_, rfl⟩
  · simp
  · simp

/-- C2 (instance): with 32 counts per tick and a maximum of 2047 ticks, a request
of 100 ticks ended by the wakeup timer steps the kernel by 99. -/
theorem timer_fired_wake_steps_pred_witness :
    (vPortGetRtcBase cfg16 ≠ 0 ∧ 2 ≤ 100 ∧ 100 ≤ st16.xMaximumPossibleSuppressedTicks ∧
        100 < 4294967296 ∧
        envTimerFired.eTaskConfirmSleepModeStatus ≠ eSleepModeStatus.eAbortSleep ∧
        envTimerFired.isrAfterUnmask = true) ∧
      ∃ st1 tr, vPortSuppressTicksAndSleep cfg16 envTimerFired st16 100 = some (st1, tr) ∧
        Action.sampleWakeupFlag true ∈ tr ∧
        stepTickCalls tr = [99] ∧
        st1.ulLPTimerInterruptFired = false :=
  ⟨⟨by decide, by decide, by decide, by decide, by decide, rfl⟩,
    timer_fired_wake_steps_pred cfg16 envTimerFired st16 100 (by decide) (by decide)
      (by decide) (by decide) (by decide) rfl⟩

/-! ## Clamping -/

/-- C3: a request above `xMaximumPossibleSuppressedTicks` has the same result as
a request of exactly `xMaximumPossibleSuppressedTicks`, whatever the collaborators
do: the same statics, the same actions in the same order (so the same reload
value and the same argument of `vTaskStepTick`), or the same failure. -/
theorem clamped_request_same_as_maximum (cfg : PortConfig) (env : Collaborators)
    (st : PortState) (N : Nat) (hN : N > st.xMaximumPossibleSuppressedTicks) :
    vPortSuppressTicksAndSleep cfg env st N
      = vPortSuppressTicksAndSleep cfg env st st.xMaximumPossibleSuppressedTicks := by
  unfold vPortSuppressTicksAndSleep
  simp only [clamp_eq_min, Nat.min_eq_right (Nat.le_of_lt hN), Nat.min_self]

/-- C3 (instance): with a maximum of 2047 ticks a request of 2500 behaves as a
request of 2047, here on a sleep ended by the wakeup timer, which steps 2046. -/
theorem clamped_request_same_as_maximum_witness :
    2500 > st16.xMaximumPossibleSuppressedTicks ∧
      vPortSuppressTicksAndSleep cfg16 envTimerFired st16 2500
        = vPortSuppressTicksAndSleep cfg16 envTimerFired st16 2047 ∧
      (vPortSuppressTicksAndSleep cfg16 envTimerFired st16 2047).map
        (fun r => (armedReloads r.2, stepTickCalls r.2)) = some ([65472], [2046]) :=
  ⟨by decide, clamped_request_same_as_maximum cfg16 envTimerFired st16 2500 (by decide),
    by decide⟩

/-! ## The abort path -/

/-- C4: for every request `N ≥ 1` that reaches the scheduler query (non-null
base, a maximum of at least 1), when `eTaskConfirmSleepModeStatus` answers
`eAbortSleep` the call returns with the statics unchanged (no start count is
captured) after exactly these actions: both timers stopped, interrupts masked,
the query, the SysTick reload register loaded with the current-value register,
SysTick enabled, the reload register set to `ulTimerCountsForOneTick - 1`,
interrupts unmasked.  `vTaskStepTick` is not called, so 0 ticks are applied, and
the wakeup timer is neither armed nor started. -/
theorem abort_restores_periodic_timer (cfg : PortConfig) (env : Collaborators)
    (st : PortState) (N : Nat)
    (hbase : vPortGetRtcBase cfg ≠ 0)
    (hN : 1 ≤ N) (hmax : 1 ≤ st.xMaximumPossibleSuppressedTicks)
    (habort : env.eTaskConfirmSleepModeStatus = eSleepModeStatus.eAbortSleep) :
    ∃ tr, vPortSuppressTicksAndSleep cfg env st N = some (st, tr) ∧
      tr = [ Action.RTC_StopTimer,
             Action.sysTickCtrlClearEnable,
             Action.disable_irq,
             Action.eTaskConfirmSleepModeStatus eSleepModeStatus.eAbortSleep,
             Action.sysTickLoadWrite (env.portNVIC_SYSTICK_CURRENT_VALUE_REG % 4294967296),
             Action.sysTickCtrlSetEnable,
             Action.sysTickLoadWrite (sub32 st.ulTimerCountsForOneTick 1),
             Action.enable_irq ] ∧
      (1 ≤ st.ulTimerCountsForOneTick → st.ulTimerCountsForOneTick < 4294967296 →
        sub32 st.ulTimerCountsForOneTick 1 = st.ulTimerCountsForOneTick - 1) ∧
      stepTickCalls tr = [] ∧ appliedTicks tr = 0 ∧ armedReloads tr = [] ∧
      (∀ v, Action.RTC_StartTimer v ∉ tr) := by
  have hx : min N st.xMaximumPossibleSuppressedTicks ≠ 0 := by omega
  rw [suppress_abort cfg env st N hbase hx habort]
  refine ⟨_, rfl, ?_, fun h1 h2 => sub32_of_le h1 h2, ?_⟩
  · simp [entryActions, abortActions, habort]
  · simp [entryActions, abortActions, appliedTicks, armedReloads]

/-- C4 (instance): a request of 100 ticks that the scheduler refuses steps no
tick and leaves the reload register at 15999 after restarting from the current
value 1234. -/
theorem abort_restores_periodic_timer_witness :
    (vPortGetRtcBase cfg16 ≠ 0 ∧ 1 ≤ 100 ∧ 1 ≤ st16.xMaximumPossibleSuppressedTicks ∧
        envAbort.eTaskConfirmSleepModeStatus = eSleepModeStatus.eAbortSleep) ∧
      ∃ tr, vPortSuppressTicksAndSleep cfg16 envAbort st16 100 = some (st16, tr) ∧
        tr = [ Action.RTC_StopTimer,
               Action.sysTickCtrlClearEnable,
               Action.disable_irq,
               Action.eTaskConfirmSleepModeStatus eSleepModeStatus.eAbortSleep,
               Action.sysTickLoadWrite 1234,
               Action.sysTickCtrlSetEnable,
               Action.sysTickLoadWrite 15999,
               Action.enable_irq ] ∧
        (1 ≤ 16000 → 16000 < 4294967296 → sub32 16000 1 = 15999) ∧
        stepTickCalls tr = [] ∧ appliedTicks tr = 0 ∧ armedReloads tr = [] ∧
        (∀ v, Action.RTC_StartTimer v ∉ tr) :=
  ⟨⟨by decide, by decide, by decide, rfl⟩,
    abort_restores_periodic_timer cfg16 envAbort st16 100 (by decide) (by decide)
      (by decide) rfl⟩

/-! ## Requests of 0 and 1 -/

/-- C5 (counterexample): a request of 1 tick with a maximum of 2047 passes the
test at line 190; both timers are stopped, the wakeup timer is armed with reload
0, and when another interrupt ends the sleep 64 counts later the kernel is
stepped by 2 ticks. -/
theorem request_of_one_reprograms_timers :
    ∃ st1 tr, vPortSuppressTicksAndSleep cfg16 (envEarly 0 64) st16 1 = some (st1, tr) ∧
      Action.RTC_StopTimer ∈ tr ∧
      Action.sysTickCtrlClearEnable ∈ tr ∧
      Action.RTC_SetWakeupCount 0 ∈ tr ∧
      tr.any Action.isTimerProgramming = true ∧
      appliedTicks tr = 2 :=
  ⟨_, _, rfl, by decide, by decide, by decide, by decide, by decide⟩

/-- C5 (amended): a request of 0 ticks returns at line 190 with the statics
unchanged and without any action, whatever the collaborators do: no timer is
stopped, armed or reloaded and 0 ticks are applied. -/
theorem request_of_zero_does_nothing (cfg : PortConfig) (env : Collaborators)
    (st : PortState) :
    ∃ tr, vPortSuppressTicksAndSleep cfg env st 0 = some (st, tr) ∧
      tr = [] ∧ appliedTicks tr = 0 ∧ tr.any Action.isTimerProgramming = false :=
  ⟨[], suppress_not_attempted cfg env st 0 (Or.inr (Nat.zero_min _)), rfl, rfl, rfl⟩

/-! ## Configuration -/

/-- What a completed `vPortSetupTimerInterrupt` has stored. -/
theorem setup_some (cfg : PortConfig) (st0 st : PortState) (tr : List Action)
    (h : vPortSetupTimerInterrupt cfg st0 = some (st, tr)) :
    cfg.configTICK_RATE_HZ ≠ 0 ∧
      st.ulTimerCountsForOneTick
        = (cfg.configSYSTICK_CLOCK_HZ / cfg.configTICK_RATE_HZ) % 4294967296 ∧
      st.ulLPTimerCountsForOneTick
        = (cfg.configRTC_CLOCK_HZ / cfg.configTICK_RATE_HZ) % 4294967296 ∧
      st.ulLPTimerCountsForOneTick ≠ 0 ∧
      st.xMaximumPossibleSuppressedTicks
        = (cfg.portMAX_32_BIT_NUMBER / st.ulLPTimerCountsForOneTick) % 4294967296 := by
  unfold vPortSetupTimerInterrupt div32 at h
  by_cases ht : cfg.configTICK_RATE_HZ = 0
  · simp [ht] at h
  · by_cases hc : (cfg.configRTC_CLOCK_HZ / cfg.configTICK_RATE_HZ) % 4294967296 = 0
    · simp [ht, hc] at h
    · simp only [ht, hc, if_false, Option.some.injEq, Prod.mk.injEq] at h
      obtain ⟨hst, -⟩ := h
      subst hst
      exact ⟨ht, rfl, rfl, hc, rfl⟩

/-- C6 (counterexample): with a tick rate of 1000 Hz and a wakeup clock of
500 Hz, both non-zero, `ulLPTimerCountsForOneTick` is 0 and the division that
computes `xMaximumPossibleSuppressedTicks` has a zero divisor: nothing is
stored. -/
theorem setup_divides_by_zero_on_slow_wakeup_clock :
    (16000000 ≠ 0 ∧ 1000 ≠ 0 ∧ 500 ≠ 0) ∧
      vPortSetupTimerInterrupt
        { configSYSTICK_CLOCK_HZ := 16000000
          configTICK_RATE_HZ := 1000
          configRTC_CLOCK_HZ := 500
          portMAX_32_BIT_NUMBER := 65535
          RTC_BASE := 1073786880 } PortState.zero = none :=
  ⟨by decide, by decide⟩

/-- C6 (amended): for 32-bit clock rates, a non-zero tick rate and a wakeup clock
at least as fast as the tick rate, with a counter maximum of `2 ^ w - 1` for a
width `w ≤ 32`, `vPortSetupTimerInterrupt` returns having stored
`ulTimerCountsForOneTick = configSYSTICK_CLOCK_HZ / configTICK_RATE_HZ`,
`ulLPTimerCountsForOneTick = configRTC_CLOCK_HZ / configTICK_RATE_HZ` and
`xMaximumPossibleSuppressedTicks = (2 ^ w - 1) / ulLPTimerCountsForOneTick`. -/
theorem setup_stores_tick_constants (cfg : PortConfig) (st : PortState) (w : Nat)
    (htick : 0 < cfg.configTICK_RATE_HZ)
    (hfast : cfg.configTICK_RATE_HZ ≤ cfg.configRTC_CLOCK_HZ)
    (hsys : cfg.configSYSTICK_CLOCK_HZ < 4294967296)
    (hrtc : cfg.configRTC_CLOCK_HZ < 4294967296)
    (hw : w ≤ 32) (hM : cfg.portMAX_32_BIT_NUMBER = 2 ^ w - 1) :
    ∃ st1 tr, vPortSetupTimerInterrupt cfg st = some (st1, tr) ∧
      st1.ulTimerCountsForOneTick = cfg.configSYSTICK_CLOCK_HZ / cfg.configTICK_RATE_HZ ∧
      st1.ulLPTimerCountsForOneTick = cfg.configRTC_CLOCK_HZ / cfg.configTICK_RATE_HZ ∧
      st1.xMaximumPossibleSuppressedTicks
        = (2 ^ w - 1) / (cfg.configRTC_CLOCK_HZ / cfg.configTICK_RATE_HZ) := by
  have hc : 0 < cfg.configRTC_CLOCK_HZ / cfg.configTICK_RATE_HZ := Nat.div_pos hfast htick
  have hpow : 2 ^ w ≤ 2 ^ 32 := Nat.pow_le_pow_right (by norm_num) hw
  have hpos : 0 < 2 ^ w := Nat.pow_pos (by norm_num)
  have hmax : cfg.portMAX_32_BIT_NUMBER < 4294967296 := by
    rw [hM]
    norm_num at hpow
    omega
  unfold vPortSetupTimerInterrupt
  rw [div32_of_pos htick hsys, div32_of_pos htick hrtc]
  simp only []
  rw [div32_of_pos hc hmax]
  exact ⟨_, _, rfl, rfl, rfl, by rw [hM]⟩

/-- C6 (instance): a 1 kHz tick, a 32.768 kHz wakeup clock and a 16-bit counter
give 32 counts per tick and at most 2047 suppressed ticks. -/
theorem setup_stores_tick_constants_witness :
    (cfg16.configTICK_RATE_HZ = 1000 ∧ cfg16.configRTC_CLOCK_HZ = 32768 ∧
        cfg16.portMAX_32_BIT_NUMBER = 2 ^ 16 - 1) ∧
      ∃ st1 tr, vPortSetupTimerInterrupt cfg16 PortState.zero = some (st1, tr) ∧
        st1.ulTimerCountsForOneTick = 16000 ∧
        st1.ulLPTimerCountsForOneTick = 32 ∧
        st1.xMaximumPossibleSuppressedTicks = 2047 :=
  ⟨⟨rfl, rfl, by decide⟩,
    setup_stores_tick_constants cfg16 PortState.zero 16 (by decide) (by decide) (by decide)
      (by decide) (by decide) (by decide)⟩

/-! ## Reachable statics -/

theorem consistent_zero : PortState.zero.Consistent := fun _ => rfl

theorem consistent_of_setup (cfg : PortConfig) (st0 st : PortState) (tr : List Action)
    (h : vPortSetupTimerInterrupt cfg st0 = some (st, tr)) : st.Consistent :=
  fun h0 => absurd h0 (setup_some cfg st0 st tr h).2.2.2.1

/-- Every completed call of `vPortSuppressTicksAndSleep` leaves the three
configuration statics as they were. -/
theorem suppress_keeps_configuration (cfg : PortConfig) (env : Collaborators)
    (st st1 : PortState) (N : Nat) (tr : List Action)
    (h : vPortSuppressTicksAndSleep cfg env st N = some (st1, tr)) :
    st1.ulTimerCountsForOneTick = st.ulTimerCountsForOneTick ∧
      st1.ulLPTimerCountsForOneTick = st.ulLPTimerCountsForOneTick ∧
      st1.xMaximumPossibleSuppressedTicks = st.xMaximumPossibleSuppressedTicks := by
  by_cases hna : vPortGetRtcBase cfg = 0 ∨ min N st.xMaximumPossibleSuppressedTicks = 0
  · rw [suppress_not_attempted cfg env st N hna] at h
    simp only [Option.some.injEq, Prod.mk.injEq] at h
    rw [← h.1]
    exact ⟨rfl, rfl, rfl⟩
  · simp only [not_or] at hna
    by_cases hab : env.eTaskConfirmSleepModeStatus = eSleepModeStatus.eAbortSleep
    · rw [suppress_abort cfg env st N hna.1 hna.2 hab] at h
      simp only [Option.some.injEq, Prod.mk.injEq] at h
      rw [← h.1]
      exact ⟨rfl, rfl, rfl⟩
    · cases hf : env.isrAfterUnmask with
      | true =>
        rw [suppress_fired cfg env st N hna.1 hna.2 hab hf] at h
        simp only [Option.some.injEq, Prod.mk.injEq] at h
        rw [← h.1]
        exact ⟨rfl, rfl, rfl⟩
      | false =>
        rw [suppress_early cfg env st N hna.1 hna.2 hab hf] at h
        simp only [Option.map_eq_some', Prod.mk.injEq] at h
        obtain ⟨n, -, hst, -⟩ := h
        rw [← hst]
        exact ⟨rfl, rfl, rfl⟩

theorem consistent_of_suppress (cfg : PortConfig) (env : Collaborators)
    (st st1 : PortState) (N : Nat) (tr : List Action) (hc : st.Consistent)
    (h : vPortSuppressTicksAndSleep cfg env st N = some (st1, tr)) : st1.Consistent := by
  obtain ⟨-, h2, h3⟩ := suppress_keeps_configuration cfg env st st1 N tr h
  unfold PortState.Consistent
  rw [h2, h3]
  exact hc

/-! ## The reload value -/

/-- C7: after a completed `vPortSetupTimerInterrupt` with a counter maximum of at
most `2 ^ 32 - 1`, for every request whose clamped value `x` is not 0 (so that
line 194 is reached): `ulLPTimerCountsForOneTick > 0`, `x ≥ 1`, the 32-bit
reload computation equals the exact product `ulLPTimerCountsForOneTick * (x - 1)`,
this product is at most `2 ^ 32 - 1`, and the call returns having armed the
wakeup timer with exactly this value when the sleep goes ahead (and not at all
when it is aborted). -/
theorem reload_value_exact (cfg : PortConfig) (env : Collaborators)
    (st0 st : PortState) (tr0 : List Action) (N : Nat)
    (hsetup : vPortSetupTimerInterrupt cfg st0 = some (st, tr0))
    (hM : cfg.portMAX_32_BIT_NUMBER ≤ 4294967295)
    (hbase : vPortGetRtcBase cfg ≠ 0)
    (hx : min N st.xMaximumPossibleSuppressedTicks ≠ 0) :
    0 < st.ulLPTimerCountsForOneTick ∧
      1 ≤ min N st.xMaximumPossibleSuppressedTicks ∧
      mul32 st.ulLPTimerCountsForOneTick (sub32 (min N st.xMaximumPossibleSuppressedTicks) 1)
        = st.ulLPTimerCountsForOneTick * (min N st.xMaximumPossibleSuppressedTicks - 1) ∧
      st.ulLPTimerCountsForOneTick * (min N st.xMaximumPossibleSuppressedTicks - 1)
        ≤ 4294967295 ∧
      ∃ st1 tr, vPortSuppressTicksAndSleep cfg env st N = some (st1, tr) ∧
        armedReloads tr =
          if env.eTaskConfirmSleepModeStatus = eSleepModeStatus.eAbortSleep then []
          else [st.ulLPTimerCountsForOneTick
            * (min N st.xMaximumPossibleSuppressedTicks - 1)] := by
  obtain ⟨-, -, -, hc0, hmaxeq⟩ := setup_some cfg st0 st tr0 hsetup
  have hc : 0 < st.ulLPTimerCountsForOneTick := Nat.pos_of_ne_zero hc0
  have hmaxle : st.xMaximumPossibleSuppressedTicks
      ≤ cfg.portMAX_32_BIT_NUMBER / st.ulLPTimerCountsForOneTick := by
    rw [hmaxeq]
    exact Nat.mod_le _ _
  have hprod : st.ulLPTimerCountsForOneTick * st.xMaximumPossibleSuppressedTicks
      ≤ cfg.portMAX_32_BIT_NUMBER :=
    le_trans (Nat.mul_le_mul_left _ hmaxle) (Nat.mul_div_le _ _)
  have hxle : min N st.xMaximumPossibleSuppressedTicks - 1
      ≤ st.xMaximumPossibleSuppressedTicks := by omega
  have hbound : st.ulLPTimerCountsForOneTick * (min N st.xMaximumPossibleSuppressedTicks - 1)
      ≤ 4294967295 :=
    le_trans (le_trans (Nat.mul_le_mul_left _ hxle) hprod) hM
  have hx32 : min N st.xMaximumPossibleSuppressedTicks < 4294967296 := by
    have : st.xMaximumPossibleSuppressedTicks < 4294967296 := by
      rw [hmaxeq]
      exact Nat.mod_lt _ (by norm_num)
    omega
  have hsub : sub32 (min N st.xMaximumPossibleSuppressedTicks) 1
      = min N st.xMaximumPossibleSuppressedTicks - 1 :=
    sub32_of_le (by omega) hx32
  have hmul : mul32 st.ulLPTimerCountsForOneTick
      (sub32 (min N st.xMaximumPossibleSuppressedTicks) 1)
      = st.ulLPTimerCountsForOneTick * (min N st.xMaximumPossibleSuppressedTicks - 1) := by
    rw [hsub]
    exact mul32_of_lt (by omega)
  refine ⟨hc, by omega, hmul, hbound, ?_⟩
  by_cases hab : env.eTaskConfirmSleepModeStatus = eSleepModeStatus.eAbortSleep
  · rw [suppress_abort cfg env st N hbase hx hab]
    exact ⟨_, _, rfl, by simp [hab]⟩
  · cases hf : env.isrAfterUnmask with
    | true =>
      rw [suppress_fired cfg env st N hbase hx hab hf, hmul]
      exact ⟨_, _, rfl, by simp [hab]⟩
    | false =>
      rw [suppress_early cfg env st N hbase hx hab hf, hmul,
        div32_of_pos hc (RTC_GetWakeupCount_lt _ _ _)]
      exact ⟨_, _, rfl, by simp [hab]⟩

/-- C7 (instance): after configuration with 32 counts per tick and the maximum
`0xffffffff`, the largest 32-bit request is clamped to 134217727 ticks and arms
the wakeup timer with `32 * 134217726 = 4294967232`. -/
theorem reload_value_exact_witness :
    (vPortSetupTimerInterrupt cfg32 PortState.zero).map Prod.fst = some st32 ∧
      cfg32.portMAX_32_BIT_NUMBER ≤ 4294967295 ∧
      0 < 32 ∧ 1 ≤ min 4294967295 134217727 ∧
      mul32 32 (sub32 (min 4294967295 134217727) 1) = 32 * (min 4294967295 134217727 - 1) ∧
      32 * (min 4294967295 134217727 - 1) ≤ 4294967295 ∧
      ∃ st1 tr, vPortSuppressTicksAndSleep cfg32 envTimerFired st32 4294967295
          = some (st1, tr) ∧
        armedReloads tr =
          if envTimerFired.eTaskConfirmSleepModeStatus = eSleepModeStatus.eAbortSleep then []
          else [32 * (min 4294967295 134217727 - 1)] :=
  ⟨by decide, by decide,
    reload_value_exact cfg32 envTimerFired PortState.zero st32
      [ Action.NVIC_EnableIRQ, Action.sysTickLoadWrite 15999, Action.sysTickCurrentWrite 0,
        Action.sysTickCtrlWriteClkIntEnable ] 4294967295 (by decide) (by decide) (by decide)
      (by decide)⟩

/-! ## Calls of `vTaskStepTick` and of the sleep hooks -/

/-- C8: from consistent statics, for every request and all collaborators the
call returns and `vTaskStepTick` is called at most once.  It is not called when
suppression is not attempted (null base or clamped request 0) or is aborted, so
0 ticks are applied; otherwise it is called exactly once, with the clamped
request minus 1 when the flag is seen set and with the elapsed count divided by
`ulLPTimerCountsForOneTick` when it is seen clear. -/
theorem step_tick_called_at_most_once (cfg : PortConfig) (env : Collaborators)
    (st : PortState) (N : Nat) (hcons : st.Consistent) :
    ∃ st1 tr, vPortSuppressTicksAndSleep cfg env st N = some (st1, tr) ∧
      (stepTickCalls tr).length ≤ 1 ∧
      (vPortGetRtcBase cfg = 0 ∨ min N st.xMaximumPossibleSuppressedTicks = 0 ∨
          env.eTaskConfirmSleepModeStatus = eSleepModeStatus.eAbortSleep →
        stepTickCalls tr = [] ∧ appliedTicks tr = 0) ∧
      (vPortGetRtcBase cfg ≠ 0 ∧ min N st.xMaximumPossibleSuppressedTicks ≠ 0 ∧
          env.eTaskConfirmSleepModeStatus ≠ eSleepModeStatus.eAbortSleep →
        stepTickCalls tr =
            [ if env.isrAfterUnmask = true then
                sub32 (min N st.xMaximumPossibleSuppressedTicks) 1
              else
                RTC_GetWakeupCount cfg (st.afterSleep env.timestampAtStart)
                  env.timestampAtWake / st.ulLPTimerCountsForOneTick ] ∧
          appliedTicks tr =
            if env.isrAfterUnmask = true then
              sub32 (min N st.xMaximumPossibleSuppressedTicks) 1
            else
              RTC_GetWakeupCount cfg (st.afterSleep env.timestampAtStart)
                env.timestampAtWake / st.ulLPTimerCountsForOneTick) := by
  by_cases hna : vPortGetRtcBase cfg = 0 ∨ min N st.xMaximumPossibleSuppressedTicks = 0
  · rw [suppress_not_attempted cfg env st N hna]
    refine ⟨_, _, rfl, Nat.zero_le _, fun _ => ⟨rfl, rfl⟩, fun h => ?_⟩
    rcases hna with h0 | h0
    · exact absurd h0 h.1
    · exact absurd h0 h.2.1
  · simp only [not_or] at hna
    obtain ⟨hbase, hx⟩ := hna
    by_cases hab : env.eTaskConfirmSleepModeStatus = eSleepModeStatus.eAbortSleep
    · rw [suppress_abort cfg env st N hbase hx hab]
      have hcalls : stepTickCalls (entryActions env ++ abortActions env st) = [] := by simp
      refine ⟨_, _, rfl, ?_, fun _ => ⟨hcalls, appliedTicks_of_no_call _ hcalls⟩,
        fun h => absurd hab h.2.2⟩
      rw [hcalls]
      exact Nat.zero_le _
    · have hc : 0 < st.ulLPTimerCountsForOneTick := by
        rcases Nat.eq_zero_or_pos st.ulLPTimerCountsForOneTick with h0 | h0
        · have := hcons h0
          omega
        · exact h0
      have hnot : ¬ (vPortGetRtcBase cfg = 0 ∨ min N st.xMaximumPossibleSuppressedTicks = 0 ∨
          env.eTaskConfirmSleepModeStatus = eSleepModeStatus.eAbortSleep) := by
        rintro (h0 | h0 | h0)
        · exact hbase h0
        · exact hx h0
        · exact hab h0
      by_cases hf : env.isrAfterUnmask = true
      · rw [suppress_fired cfg env st N hbase hx hab hf]
        rw [if_pos hf]
        refine ⟨_, _, rfl, ?_, fun h => absurd h hnot, fun _ => ?_⟩
        · simp
        · have hcalls : ∀ tr, stepTickCalls tr
              = [sub32 (min N st.xMaximumPossibleSuppressedTicks) 1] →
              stepTickCalls tr = [sub32 (min N st.xMaximumPossibleSuppressedTicks) 1] ∧
              appliedTicks tr = sub32 (min N st.xMaximumPossibleSuppressedTicks) 1 :=
            fun tr h => ⟨h, appliedTicks_of_one_call _ _ h⟩
          exact hcalls _ (by simp)
      · have hf0 : env.isrAfterUnmask = false := by
          cases h : env.isrAfterUnmask with
          | true => exact absurd h hf
          | false => rfl
        rw [suppress_early cfg env st N hbase hx hab hf0,
          div32_of_pos hc (RTC_GetWakeupCount_lt _ _ _)]
        rw [if_neg hf]
        refine ⟨_, _, rfl, ?_, fun h => absurd h hnot, fun _ => ?_⟩
        · simp
        · have hcalls : ∀ (tr : List Action) (n : Nat), stepTickCalls tr = [n] →
              stepTickCalls tr = [n] ∧ appliedTicks tr = n :=
            fun tr n h => ⟨h, appliedTicks_of_one_call _ _ h⟩
          exact hcalls _ _ (by simp)

/-- C8 (instance): a request of 100 ticks ended 320 counts after its start by
another interrupt calls `vTaskStepTick` once, with 10. -/
theorem step_tick_called_at_most_once_witness :
    st16.Consistent ∧
      ∃ st1 tr, vPortSuppressTicksAndSleep cfg16 (envEarly 7 327) st16 100 = some (st1, tr) ∧
        (stepTickCalls tr).length ≤ 1 ∧ stepTickCalls tr = [10] :=
  have hc : st16.Consistent := fun h => absurd h (by decide)
  ⟨hc, by
    obtain ⟨st1, tr, h, hlen, -, hcall⟩ :=
      step_tick_called_at_most_once cfg16 (envEarly 7 327) st16 100 hc
    have h10 := (hcall ⟨by decide, by decide, by decide⟩).1
    have hval : (if (envEarly 7 327).isrAfterUnmask = true then
          sub32 (min 100 st16.xMaximumPossibleSuppressedTicks) 1
        else
          RTC_GetWakeupCount cfg16 (st16.afterSleep (envEarly 7 327).timestampAtStart)
            (envEarly 7 327).timestampAtWake / st16.ulLPTimerCountsForOneTick) = 10 := by
      decide
    rw [hval] at h10
    exact ⟨st1, tr, h, hlen, h10⟩⟩

/-- C9: from consistent statics, for every request `N ≥ 1` that reaches the
scheduler query and is not aborted, the call returns; the pre-sleep hook is
called once with the clamped request `x`; `PM_PowerManagement` is executed once
when the hook leaves a value greater than 0 in its copy and not at all when it
leaves 0; `configPOST_SLEEP_PROCESSING` is called exactly once, with `x`; and
the argument of `vTaskStepTick` is computed from `x` and the counter, not from
the copy. -/
theorem sleep_hooks_on_proceed_path (cfg : PortConfig) (env : Collaborators)
    (st : PortState) (N : Nat) (hcons : st.Consistent)
    (hbase : vPortGetRtcBase cfg ≠ 0)
    (hN : 1 ≤ N) (hmax : 1 ≤ st.xMaximumPossibleSuppressedTicks)
    (hgo : env.eTaskConfirmSleepModeStatus ≠ eSleepModeStatus.eAbortSleep) :
    ∃ st1 tr, vPortSuppressTicksAndSleep cfg env st N = some (st1, tr) ∧
      preSleepCalls tr = [min N st.xMaximumPossibleSuppressedTicks] ∧
      sleepEntryCount tr =
        (if 0 < env.configPRE_SLEEP_PROCESSING (min N st.xMaximumPossibleSuppressedTicks)
            % 4294967296 then 1 else 0) ∧
      (Action.PM_PowerManagement ∈ tr ↔
        0 < env.configPRE_SLEEP_PROCESSING (min N st.xMaximumPossibleSuppressedTicks)
          % 4294967296) ∧
      postSleepCalls tr = [min N st.xMaximumPossibleSuppressedTicks] ∧
      stepTickCalls tr =
        [ if env.isrAfterUnmask = true then
            sub32 (min N st.xMaximumPossibleSuppressedTicks) 1
          else
            RTC_GetWakeupCount cfg (st.afterSleep env.timestampAtStart)
              env.timestampAtWake / st.ulLPTimerCountsForOneTick ] := by
  have hx : min N st.xMaximumPossibleSuppressedTicks ≠ 0 := by omega
  have hc : 0 < st.ulLPTimerCountsForOneTick := by
    rcases Nat.eq_zero_or_pos st.ulLPTimerCountsForOneTick with h0 | h0
    · have := hcons h0
      omega
    · exact h0
  have hmem : ∀ x, (Action.PM_PowerManagement ∈ sleepActions env x ↔
      0 < env.configPRE_SLEEP_PROCESSING x % 4294967296) := by
    intro x
    unfold sleepActions
    simp only [gt_iff_lt]
    split <;> simp [*]
  have hisr : ∀ b, Action.PM_PowerManagement ∉ isrActions b := by
    intro b
    cases b <;> simp [isrActions]
  by_cases hf : env.isrAfterUnmask = true
  · rw [suppress_fired cfg env st N hbase hx hgo hf, if_pos hf]
    refine ⟨_, _, rfl, by simp, ?_, ?_, by simp, by simp⟩
    · simp [sleepEntryCount_sleepActions]
    · simp [hmem, hisr, entryActions, resumeTickActions]
  · have hf0 : env.isrAfterUnmask = false := by
      cases h : env.isrAfterUnmask with
      | true => exact absurd h hf
      | false => rfl
    rw [suppress_early cfg env st N hbase hx hgo hf0,
      div32_of_pos hc (RTC_GetWakeupCount_lt _ _ _), if_neg hf]
    refine ⟨_, _, rfl, by simp, ?_, ?_, by simp, by simp⟩
    · simp [sleepEntryCount_sleepActions]
    · simp [hmem, hisr, entryActions, resumeTickActions]

/-- C9 (instance): when the pre-sleep hook leaves 0 in its copy of a request of
100 ticks, `PM_PowerManagement` is not executed, the post-sleep hook still gets
100, and a wake by the timer steps 99 ticks. -/
theorem sleep_hooks_on_proceed_path_witness :
    st16.Consistent ∧
      (vPortGetRtcBase cfg16 ≠ 0 ∧ 1 ≤ 100 ∧ 1 ≤ st16.xMaximumPossibleSuppressedTicks ∧
        envPreWaits.eTaskConfirmSleepModeStatus ≠ eSleepModeStatus.eAbortSleep) ∧
      ∃ st1 tr, vPortSuppressTicksAndSleep cfg16 envPreWaits st16 100 = some (st1, tr) ∧
        preSleepCalls tr = [100] ∧
        sleepEntryCount tr = 0 ∧
        (Action.PM_PowerManagement ∈ tr ↔ 0 < 0) ∧
        postSleepCalls tr = [100] ∧
        stepTickCalls tr = [99] :=
  have hc : st16.Consistent := fun h => absurd h (by decide)
  ⟨hc, ⟨by decide, by decide, by decide, by decide⟩,
    sleep_hooks_on_proceed_path cfg16 envPreWaits st16 100 hc (by decide) (by decide)
      (by decide) (by decide)⟩

/-! ## The elapsed count -/

/-- With a start count of 1 and a counter read of 0 the elapsed count is the
constant `portMAX_32_BIT_NUMBER` minus 1, modulo `2 ^ 32`; it is the modular
difference `2 ^ 32 - 1` only when the constant is a multiple of `2 ^ 32`. -/
theorem RTC_GetWakeupCount_wrap_by_one (cfg : PortConfig) (st : PortState)
    (hs : st.s_rtcSleepStartCount = 1) :
    RTC_GetWakeupCount cfg st 0
        = (cfg.portMAX_32_BIT_NUMBER % 4294967296 + 4294967295) % 4294967296 ∧
      (RTC_GetWakeupCount cfg st 0 = 4294967295 ↔
        cfg.portMAX_32_BIT_NUMBER % 4294967296 = 0) := by
  have h : RTC_GetWakeupCount cfg st 0
      = (cfg.portMAX_32_BIT_NUMBER % 4294967296 + 4294967295) % 4294967296 := by
    unfold RTC_GetWakeupCount
    simp only [hs]
    rw [if_neg (by omega)]
    unfold sub32 add32
    omega
  refine ⟨h, ?_⟩
  rw [h]
  omega

/-- C10 (failing input): with the maximum `0xffffffff`, a start count of 1 and a
counter read of 0 (one count after a wrap), `RTC_GetWakeupCount` returns
`0xfffffffe`, while `(0 - 1) mod 2 ^ 32` is `0xffffffff`. -/
theorem RTC_GetWakeupCount_one_short_after_wrap :
    RTC_GetWakeupCount cfg32 { st32 with s_rtcSleepStartCount := 1 } 0 = 4294967294 ∧
      (0 + 4294967296 - 1) % 4294967296 = 4294967295 := by
  refine ⟨by decide, by decide⟩

/-! ## No over-reporting on an early wake -/

/-- With the maximum `0xffffffff` the count returned by `RTC_GetWakeupCount` never
exceeds the modular difference between the counter read and the start count. -/
theorem RTC_GetWakeupCount_le_elapsed (cfg : PortConfig) (st : PortState) (t : Nat)
    (hM : cfg.portMAX_32_BIT_NUMBER = 4294967295)
    (hs : st.s_rtcSleepStartCount < 4294967296) :
    RTC_GetWakeupCount cfg st t
      ≤ (t % 4294967296 + 4294967296 - st.s_rtcSleepStartCount) % 4294967296 := by
  by_cases h : st.s_rtcSleepStartCount ≤ t % 4294967296
  · rw [RTC_GetWakeupCount_no_wrap cfg st t h]
    have := Nat.mod_lt t (show 0 < 4294967296 by norm_num)
    omega
  · have hshort := RTC_GetWakeupCount_wrap_short cfg st t hM hs (by omega)
    omega

/-- With a 16-bit maximum `0xffff` the wrapped branch can exceed the modular
difference: one count after a start count of `0xffffffff` it returns 65536. -/
theorem RTC_GetWakeupCount_sixteen_bit_maximum_exceeds :
    RTC_GetWakeupCount cfg16 { st16 with s_rtcSleepStartCount := 4294967295 } 0 = 65536 ∧
      (0 + 4294967296 - 4294967295) % 4294967296 = 1 := by
  refine ⟨by decide, by decide⟩

/-- C11: with the maximum `0xffffffff` and `ulLPTimerCountsForOneTick = c > 0`,
for all readings of the free-running counter, when the sleep is not aborted and
the flag is seen clear the call returns and the argument `A` of `vTaskStepTick`
satisfies `A * c ≤ (currentCount - SleepStartCount) mod 2 ^ 32` as exact
integers; and when that elapsed count is at most the armed reload `c * (x - 1)`,
with `x` the clamped request, then `A ≤ x - 1`. -/
theorem early_wake_never_over_reports (cfg : PortConfig) (env : Collaborators)
    (st : PortState) (N : Nat)
    (hM : cfg.portMAX_32_BIT_NUMBER = 4294967295)
    (hbase : vPortGetRtcBase cfg ≠ 0)
    (hc : 0 < st.ulLPTimerCountsForOneTick)
    (hx : min N st.xMaximumPossibleSuppressedTicks ≠ 0)
    (hgo : env.eTaskConfirmSleepModeStatus ≠ eSleepModeStatus.eAbortSleep)
    (hflag : env.isrAfterUnmask = false) :
    ∃ st1 tr A, vPortSuppressTicksAndSleep cfg env st N = some (st1, tr) ∧
      Action.sampleWakeupFlag false ∈ tr ∧
      stepTickCalls tr = [A] ∧
      A * st.ulLPTimerCountsForOneTick
        ≤ (env.timestampAtWake % 4294967296 + 4294967296
            - env.timestampAtStart % 4294967296) % 4294967296 ∧
      ((env.timestampAtWake % 4294967296 + 4294967296
            - env.timestampAtStart % 4294967296) % 4294967296
          ≤ st.ulLPTimerCountsForOneTick * (min N st.xMaximumPossibleSuppressedTicks - 1) →
        A ≤ min N st.xMaximumPossibleSuppressedTicks - 1) := by
  have hs : (st.afterSleep env.timestampAtStart).s_rtcSleepStartCount
      = env.timestampAtStart % 4294967296 := rfl
  have hle := RTC_GetWakeupCount_le_elapsed cfg (st.afterSleep env.timestampAtStart)
    env.timestampAtWake hM (by rw [hs]; omega)
  rw [hs] at hle
  have hA : RTC_GetWakeupCount cfg (st.afterSleep env.timestampAtStart) env.timestampAtWake
        / st.ulLPTimerCountsForOneTick * st.ulLPTimerCountsForOneTick
      ≤ (env.timestampAtWake % 4294967296 + 4294967296
          - env.timestampAtStart % 4294967296) % 4294967296 :=
    le_trans (Nat.div_mul_le_self _ _) hle
  rw [suppress_early cfg env st N hbase hx hgo hflag,
    div32_of_pos hc (RTC_GetWakeupCount_lt _ _ _)]
  refine ⟨_, _, _, rfl, ?_, ?_, hA, fun hre => ?_⟩
  · simp
  · simp
  · have hmul := le_trans hA hre
    rw [Nat.mul_comm st.ulLPTimerCountsForOneTick] at hmul
    exact Nat.le_of_mul_le_mul_right hmul hc

/-- C11 (instance): a request of 100 ticks with 32 counts per tick, woken by
another interrupt when the counter has gone from `0xffffffff` to 31 (32 counts
elapsed, across the wrap): the argument `A` of `vTaskStepTick` satisfies
`A * 32 ≤ 32` and, the elapsed count being below the reload `32 * 99`,
`A ≤ 99`. -/
theorem early_wake_never_over_reports_witness :
    (cfg32.portMAX_32_BIT_NUMBER = 4294967295 ∧ vPortGetRtcBase cfg32 ≠ 0 ∧
        0 < st32.ulLPTimerCountsForOneTick ∧
        min 100 st32.xMaximumPossibleSuppressedTicks ≠ 0 ∧
        (envEarly 4294967295 31).eTaskConfirmSleepModeStatus ≠ eSleepModeStatus.eAbortSleep ∧
        (envEarly 4294967295 31).isrAfterUnmask = false) ∧
      ∃ st1 tr A,
        vPortSuppressTicksAndSleep cfg32 (envEarly 4294967295 31) st32 100 = some (st1, tr) ∧
        Action.sampleWakeupFlag false ∈ tr ∧
        stepTickCalls tr = [A] ∧
        A * 32 ≤ 32 ∧
        (32 ≤ 32 * 99 → A ≤ 99) :=
  ⟨⟨rfl, by decide, by decide, by decide, by decide, rfl⟩,
    early_wake_never_over_reports cfg32 (envEarly 4294967295 31) st32 100 rfl (by decide)
      (by decide) (by decide) (by decide) rfl⟩

/-! ## Order of the actions on the proceed path -/

/-- C12 (counterexample): a request of 100 ticks during whose sleep `vPortRtcIsr`
runs after the pre-sleep hook.  The flag is not cleared between the capture of
the start count and the pre-sleep hook; it is cleared after the post-sleep hook,
so the flag set by the handler is gone when it is read (the read sees `false`)
and the ticks are taken from the counter instead. -/
theorem flag_set_while_asleep_is_cleared_before_read :
    vPortSuppressTicksAndSleep cfg16 envIsrAsleep st16 100 =
      some (st16.afterSleep 5000,
        [ Action.RTC_StopTimer,
          Action.sysTickCtrlClearEnable,
          Action.disable_irq,
          Action.eTaskConfirmSleepModeStatus eSleepModeStatus.eStandardSleep,
          Action.RTC_SetWakeupCount 3168,
          Action.RTC_StartTimer 5000,
          Action.configPRE_SLEEP_PROCESSING 100,
          Action.PM_PowerManagement,
          Action.sysPri2OrPendSV,
          Action.sysPri2OrSysTick,
          Action.sysTickCtrlWriteClkInt,
          Action.enable_fiq,
          Action.vPortRtcIsr,
          Action.configPOST_SLEEP_PROCESSING 100,
          Action.clearWakeupFlag,
          Action.enable_irq,
          Action.sampleWakeupFlag false,
          Action.TA_GetTimestamp 8168,
          Action.RTC_StopTimer,
          Action.portENTER_CRITICAL,
          Action.sysTickCtrlSetEnable,
          Action.vTaskStepTick 99,
          Action.sysTickLoadWrite 15999,
          Action.portEXIT_CRITICAL ]) := by
  decide

/-- C12 (amended): from consistent statics, one call that is not aborted returns
after these actions in this order: the wakeup timer is armed, the start count is
captured, the pre-sleep hook is called and (unless it leaves 0 in its copy) the
sleep-entry primitive executed, the post-sleep hook is called, and only then is
the wakeup flag cleared, are interrupts unmasked and is the flag read.  No clear
of the flag comes before the post-sleep hook, and the value read is whether
`vPortRtcIsr` ran between the unmask and the read, whatever happened earlier. -/
theorem proceed_path_order (cfg : PortConfig) (env : Collaborators) (st : PortState)
    (N : Nat) (hcons : st.Consistent)
    (hbase : vPortGetRtcBase cfg ≠ 0)
    (hx : min N st.xMaximumPossibleSuppressedTicks ≠ 0)
    (hgo : env.eTaskConfirmSleepModeStatus ≠ eSleepModeStatus.eAbortSleep) :
    ∃ st1 tr early rest, vPortSuppressTicksAndSleep cfg env st N = some (st1, tr) ∧
      early =
        [ Action.RTC_StopTimer,
          Action.sysTickCtrlClearEnable,
          Action.disable_irq,
          Action.eTaskConfirmSleepModeStatus env.eTaskConfirmSleepModeStatus,
          Action.RTC_SetWakeupCount (mul32 st.ulLPTimerCountsForOneTick
            (sub32 (min N st.xMaximumPossibleSuppressedTicks) 1)),
          Action.RTC_StartTimer (env.timestampAtStart % 4294967296),
          Action.configPRE_SLEEP_PROCESSING (min N st.xMaximumPossibleSuppressedTicks) ] ++
        (if 0 < env.configPRE_SLEEP_PROCESSING (min N st.xMaximumPossibleSuppressedTicks)
            % 4294967296 then
          [ Action.PM_PowerManagement,
            Action.sysPri2OrPendSV,
            Action.sysPri2OrSysTick,
            Action.sysTickCtrlWriteClkInt,
            Action.enable_fiq ]
        else []) ++
        (if env.isrWhileAsleep = true then [Action.vPortRtcIsr] else []) ∧
      tr = early ++
        [ Action.configPOST_SLEEP_PROCESSING (min N st.xMaximumPossibleSuppressedTicks),
          Action.clearWakeupFlag,
          Action.enable_irq ] ++
        (if env.isrAfterUnmask = true then [Action.vPortRtcIsr] else []) ++
        [ Action.sampleWakeupFlag env.isrAfterUnmask ] ++ rest ∧
      Action.clearWakeupFlag ∉ early ∧
      (∀ b, Action.sampleWakeupFlag b ∉ early) ∧
      st1.s_rtcSleepStartCount = env.timestampAtStart % 4294967296 := by
  have hc : 0 < st.ulLPTimerCountsForOneTick := by
    rcases Nat.eq_zero_or_pos st.ulLPTimerCountsForOneTick with h0 | h0
    · have := hcons h0
      omega
    · exact h0
  have hearly : ∀ early : List Action,
      early = entryActions env ++
        [ Action.RTC_SetWakeupCount (mul32 st.ulLPTimerCountsForOneTick
            (sub32 (min N st.xMaximumPossibleSuppressedTicks) 1)),
          Action.RTC_StartTimer (env.timestampAtStart % 4294967296) ] ++
        sleepActions env (min N st.xMaximumPossibleSuppressedTicks) ++
        isrActions env.isrWhileAsleep →
      Action.clearWakeupFlag ∉ early ∧ ∀ b, Action.sampleWakeupFlag b ∉ early := by
    intro early he
    subst he
    constructor
    · simp [mem_sleepActions_iff, mem_isrActions_iff, entryActions]
    · intro b
      simp [mem_sleepActions_iff, mem_isrActions_iff, entryActions]
  have hshape : entryActions env ++
        [ Action.RTC_SetWakeupCount (mul32 st.ulLPTimerCountsForOneTick
            (sub32 (min N st.xMaximumPossibleSuppressedTicks) 1)),
          Action.RTC_StartTimer (env.timestampAtStart % 4294967296) ] ++
        sleepActions env (min N st.xMaximumPossibleSuppressedTicks) ++
        isrActions env.isrWhileAsleep
      = [ Action.RTC_StopTimer,
          Action.sysTickCtrlClearEnable,
          Action.disable_irq,
          Action.eTaskConfirmSleepModeStatus env.eTaskConfirmSleepModeStatus,
          Action.RTC_SetWakeupCount (mul32 st.ulLPTimerCountsForOneTick
            (sub32 (min N st.xMaximumPossibleSuppressedTicks) 1)),
          Action.RTC_StartTimer (env.timestampAtStart % 4294967296),
          Action.configPRE_SLEEP_PROCESSING (min N st.xMaximumPossibleSuppressedTicks) ] ++
        (if 0 < env.configPRE_SLEEP_PROCESSING (min N st.xMaximumPossibleSuppressedTicks)
            % 4294967296 then
          [ Action.PM_PowerManagement,
            Action.sysPri2OrPendSV,
            Action.sysPri2OrSysTick,
            Action.sysTickCtrlWriteClkInt,
            Action.enable_fiq ]
        else []) ++
        (if env.isrWhileAsleep = true then [Action.vPortRtcIsr] else []) := by
    simp only [entryActions, sleepActions, isrActions, gt_iff_lt, List.cons_append,
      List.nil_append, List.append_assoc]
  obtain ⟨hclear, hsample⟩ := hearly _ rfl
  by_cases hf : env.isrAfterUnmask = true
  · rw [suppress_fired cfg env st N hbase hx hgo hf]
    refine ⟨_, _, _, [Action.clearWakeupFlag] ++
      resumeTickActions (st.afterSleep env.timestampAtStart)
        (sub32 (min N st.xMaximumPossibleSuppressedTicks) 1), rfl, hshape.symm, ?_,
      hclear, hsample, rfl⟩
    simp only [hf, entryActions, sleepActions, isrActions, gt_iff_lt, ↓reduceIte,
      List.append_assoc, List.cons_append, List.nil_append]
  · have hf0 : env.isrAfterUnmask = false := by
      cases h : env.isrAfterUnmask with
      | true => exact absurd h hf
      | false => rfl
    rw [suppress_early cfg env st N hbase hx hgo hf0,
      div32_of_pos hc (RTC_GetWakeupCount_lt _ _ _)]
    refine ⟨_, _, _, [Action.TA_GetTimestamp (env.timestampAtWake % 4294967296)] ++
      resumeTickActions (st.afterSleep env.timestampAtStart)
        (RTC_GetWakeupCount cfg (st.afterSleep env.timestampAtStart) env.timestampAtWake
          / st.ulLPTimerCountsForOneTick), rfl, hshape.symm, ?_,
      hclear, hsample, rfl⟩
    simp only [hf0, entryActions, sleepActions, isrActions, gt_iff_lt, Bool.false_eq_true,
      ↓reduceIte, List.append_assoc, List.cons_append, List.nil_append]

/-- C12 (instance): for the request of 100 ticks during whose sleep `vPortRtcIsr`
runs, the actions up to the handler contain no clear and no read of the flag;
the post-sleep hook, the clear, the unmask and the read of `false` follow. -/
theorem proceed_path_order_witness :
    (st16.Consistent ∧ vPortGetRtcBase cfg16 ≠ 0 ∧
        min 100 st16.xMaximumPossibleSuppressedTicks ≠ 0 ∧
        envIsrAsleep.eTaskConfirmSleepModeStatus ≠ eSleepModeStatus.eAbortSleep) ∧
      ∃ st1 tr early rest,
        vPortSuppressTicksAndSleep cfg16 envIsrAsleep st16 100 = some (st1, tr) ∧
        early =
          [ Action.RTC_StopTimer,
            Action.sysTickCtrlClearEnable,
            Action.disable_irq,
            Action.eTaskConfirmSleepModeStatus eSleepModeStatus.eStandardSleep,
            Action.RTC_SetWakeupCount 3168,
            Action.RTC_StartTimer 5000,
            Action.configPRE_SLEEP_PROCESSING 100,
            Action.PM_PowerManagement,
            Action.sysPri2OrPendSV,
            Action.sysPri2OrSysTick,
            Action.sysTickCtrlWriteClkInt,
            Action.enable_fiq,
            Action.vPortRtcIsr ] ∧
        tr = early ++
          [ Action.configPOST_SLEEP_PROCESSING 100,
            Action.clearWakeupFlag,
            Action.enable_irq,
            Action.sampleWakeupFlag false ] ++ rest ∧
        Action.clearWakeupFlag ∉ early ∧
        (∀ b, Action.sampleWakeupFlag b ∉ early) ∧
        st1.s_rtcSleepStartCount = 5000 :=
  have hc : st16.Consistent := fun h => absurd h (by decide)
  ⟨⟨hc, by decide, by decide, by decide⟩, by
    obtain ⟨st1, tr, early, rest, h, he, htr, hcl, hsm, hst⟩ :=
      proceed_path_order cfg16 envIsrAsleep st16 100 hc (by decide) (by decide) (by decide)
    have hf : envIsrAsleep.isrAfterUnmask = false := rfl
    refine ⟨st1, tr, early, rest, h, he, ?_, hcl, hsm, hst⟩
    rw [htr]
    simp only [hf, Bool.false_eq_true, ↓reduceIte, List.append_assoc, List.cons_append,
      List.nil_append]
    rfl⟩

end Tickless
